import Mathlib

/- Verification development for the meetings-recording client.

The repository has four source files:
  * a transcription server action (the Transcription Gateway),
  * an audio recorder component (Capture Engine),
  * an audio visualizer component (Visualization sub-loop),
  * an audio player component (Playback Transport).
Each is shallowly embedded below; machine floats are modelled as rationals
where no irrational function occurs and as reals where a square root occurs.
-/

/-! ## Transcription Gateway (server action transcribeAudio) -/

/-- Success payload of the provider's transcription call. -/
structure TranscriptOk where
  text : String
  durationInSeconds : ℚ
  segments : List String
  language : String
deriving DecidableEq

/-- The audio argument passed to the provider: either a named in-memory
buffer (the uploaded recording) or a remote URL (the fallback sample). -/
inductive AudioSource where
  | buffer (name : String)
  | url (u : String)
deriving DecidableEq

/-- The shape returned by the gateway to its caller: either the success
record spread from the provider result, or an object with an error string. -/
inductive GatewayResult where
  | success (text : String) (durationInSeconds : ℚ) (segments : List String) (language : String)
  | failure (error : String)
deriving DecidableEq

/-- Fixed fallback sample URL from the source. -/
def TEST_MP3_URL : String := "https://download.samplelib.com/mp3/sample-3s.mp3"

/-- Disclaimer suffix appended when the fallback sample was transcribed. -/
def FALLBACK_SUFFIX : String := " (NOTE: This is from a test audio, not your recording)"

/-- Prefix of the error message produced by the outer catch block. -/
def ERR_PREFIX : String := "Failed to transcribe audio: "

/-- Message of the TypeError raised when reading the name property of a null
audio file (the useTestAudio branch reads audioFile.name unconditionally). -/
def NULL_NAME_ERROR : String := "Cannot read properties of null (reading 'name')"

/-- An uploaded audio file: name, declared content type, byte size. -/
structure TFile where
  name : String
  ftype : String
  size : ℕ
deriving DecidableEq

/-- JavaScript substring test s.includes(pat), via splitOn. -/
def strContains (s pat : String) : Bool := 2 ≤ (s.splitOn pat).length

/-- Extension selection of transcribeAudio: last dot-separated name part,
lowercased, when the name has a dot; otherwise sniffed from the content
type; otherwise mp3. -/
def getFileExtension (f : TFile) : String :=
  if 2 ≤ (f.name.splitOn ".").length then ((f.name.splitOn ".").getLastD "").toLower
  else if strContains f.ftype "webm" then "webm"
  else if strContains f.ftype "mp3" then "mp3"
  else if strContains f.ftype "wav" then "wav"
  else "mp3"

/-- Shallow embedding of the transcribeAudio server action.  The provider
(the transcribe call against the Azure whisper model) is an oracle from the
audio source to a result or a thrown error.  Control flow follows the
source: a guard when neither an audio file nor the test flag is present;
the useTestAudio branch (whose providerOptions read audioFile.name, a
TypeError when the file is null, caught by the outer catch); otherwise the
real file is sent as a buffer named audio.EXT, one failure there is retried
against the fixed fallback URL with the disclaimer suffix appended, and a
failure of that retry reaches the outer catch. -/
def transcribeAudio (audioFile : Option TFile) (useTestAudio : Bool)
    (provider : AudioSource → Except String TranscriptOk) : GatewayResult :=
  if audioFile.isNone && !useTestAudio then .failure "No audio file provided"
  else if useTestAudio then
    match audioFile with
    | none => .failure (ERR_PREFIX ++ NULL_NAME_ERROR)
    | some _ =>
      match provider (.url TEST_MP3_URL) with
      | .ok r => .success (r.text ++ FALLBACK_SUFFIX) r.durationInSeconds r.segments r.language
      | .error e => .failure (ERR_PREFIX ++ e)
  else
    match audioFile with
    | none => .failure "No audio file provided"
    | some f =>
      match provider (.buffer ("audio." ++ getFileExtension f)) with
      | .ok r => .success r.text r.durationInSeconds r.segments r.language
      | .error _ =>
        match provider (.url TEST_MP3_URL) with
        | .ok r => .success (r.text ++ FALLBACK_SUFFIX) r.durationInSeconds r.segments r.language
        | .error e => .failure (ERR_PREFIX ++ e)

/-! ## Capture Engine (recorder startRecording / stopRecording) -/

/-- The fixed ordered candidate list of recording formats from the source. -/
def formats : List String :=
  ["audio/webm", "audio/ogg", "audio/mp3", "audio/mp4", "audio/wav",
   "audio/ogg;codecs=opus", "audio/mpeg", "audio/mpga", "audio/oga",
   "audio/flac", "audio/m4a"]

/-- The for-loop over the candidate list: first format the runtime reports
as supported, none when the loop finds none. -/
def firstSupported (supported : String → Bool) : List String → Option String
  | [] => none
  | f :: rest => if supported f then some f else firstSupported supported rest

/-- Recorder component state: recording flag, elapsed-seconds counter,
buffered chunk sizes, and the MediaRecorder mime type in effect. -/
structure CaptureState where
  isRecording : Bool
  recordingTime : ℕ
  chunks : List ℕ
  recorderMime : String
deriving DecidableEq

/-- The finished blob: concatenated chunks tagged with the recorder mime. -/
structure RecordingArtifact where
  chunks : List ℕ
  mimeType : String
deriving DecidableEq

/-- startRecording: negotiate the mime type (first supported candidate,
else the runtime default recorder mime), clear chunks, reset the elapsed
counter, set the recording flag. -/
def startRecording (supported : String → Bool) (defaultMime : String) : CaptureState :=
  { isRecording := true
    recordingTime := 0
    chunks := []
    recorderMime :=
      match firstSupported supported formats with
      | some m => m
      | none => defaultMime }

/-- One elapsed second while recording: the ondataavailable callback from
MediaRecorder.start(1000) appends the delivered chunk when its size is
positive, and the one-second interval increments the elapsed counter. -/
def recorderTick (size : ℕ) (s : CaptureState) : CaptureState :=
  if s.isRecording then
    { s with
      chunks := if 0 < size then s.chunks ++ [size] else s.chunks
      recordingTime := s.recordingTime + 1 }
  else s

/-- stopRecording: when recording, MediaRecorder.stop flushes a final
chunk (appended when nonempty) and onstop builds the artifact from the
buffered chunks with the recorder mime type; timers are cleared and the
recording flag lowered.  A no-op when not recording. -/
def stopRecording (finalSize : ℕ) (s : CaptureState) :
    Option RecordingArtifact × CaptureState :=
  if s.isRecording then
    (some { chunks := s.chunks ++ (if 0 < finalSize then [finalSize] else [])
            mimeType := s.recorderMime },
     { s with isRecording := false })
  else (none, s)

/-! ## Visualization sub-loop (updateAmplitudes / stopVisualization) -/

/-- One rendered frame: the three bar values handed to setAmplitudes. -/
structure VisFrame where
  bass : ℝ
  mid : ℝ
  treble : ℝ

/-- The recentMaxValues ref: per-band exponentially smoothed running max. -/
structure RecentMax where
  bass : ℝ
  mid : ℝ
  treble : ℝ

/-- The getMaxForRange loop: for i from start while i < min(end, length),
keep the largest byte seen, starting from 0. -/
def getMaxForRange (dataArray : List ℕ) (s e : ℕ) : ℕ :=
  (List.range' s (min e dataArray.length - s)).foldl
    (fun m i => if m < dataArray.getD i 0 then dataArray.getD i 0 else m) 0

/-- Square-root compression of the dynamic range: sqrt(value/255) * 100. -/
noncomputable def compressDynamicRange (value : ℝ) : ℝ :=
  Real.sqrt (value / 255) * 100

/-- Per-band fixed gains. -/
noncomputable def bassGain : ℝ := 1.2

/-- Mid-band gain. -/
noncomputable def midGain : ℝ := 1.7

/-- Treble-band gain. -/
noncomputable def trebleGain : ℝ := 2.2

/-- Running-max adaptation rate. -/
noncomputable def adaptationRate : ℝ := 0.05

/-- One smoothing step of a recentMaxValues entry:
val + (max(val, newVal) - val) * adaptationRate. -/
noncomputable def updateRecentMax (val newVal : ℝ) : ℝ :=
  val + (max val newVal - val) * adaptationRate

/-- Adaptive de-gain factor: 80 / maxVal when maxVal exceeds 80, else 1. -/
noncomputable def adaptiveScale (maxVal : ℝ) : ℝ :=
  if maxVal > 80 then 80 / maxVal else 1

/-- One iteration of the per-frame update closure: band maxima over the
fixed bin ranges, square-root compression, per-band gains, running-max
smoothing (updated before the adaptive gain reads it), adaptive de-gain
from the updated running max, and the final min/max constraints. -/
noncomputable def updateAmplitudes (dataArray : List ℕ) (recent : RecentMax) :
    VisFrame × RecentMax :=
  let bassRaw := getMaxForRange dataArray 0 10
  let midRaw := getMaxForRange dataArray 10 30
  let trebleRaw := getMaxForRange dataArray 30 80
  let bassVal := compressDynamicRange bassRaw * bassGain
  let midVal := compressDynamicRange midRaw * midGain
  let trebleVal := compressDynamicRange trebleRaw * trebleGain
  let newRecent : RecentMax :=
    { bass := updateRecentMax recent.bass bassVal
      mid := updateRecentMax recent.mid midVal
      treble := updateRecentMax recent.treble trebleVal }
  ({ bass := min 90 (max 5 (bassVal * adaptiveScale newRecent.bass))
     mid := min 90 (max 5 (midVal * adaptiveScale newRecent.mid))
     treble := min 90 (max 5 (trebleVal * adaptiveScale newRecent.treble)) },
   newRecent)

/-- Band maximum as the spec words it: the maximum raw magnitude over the
bins of the half-open range, zero on an empty range. -/
def specBandMax (snapshot : List ℕ) (s e : ℕ) : ℕ :=
  ((snapshot.drop s).take (e - s)).foldl max 0

/-- The per-frame step exactly as claim C1 words it, built independently of
the code-side definition: band maxima over [0,10), [10,30), [30,80),
compression sqrt(raw/255)*100, gains 1.2 / 1.7 / 2.2, running-max update
with rate 0.05, scaling by 80/runningMax when the updated running max
exceeds 80, and a clamp of the result to [5, 90]. -/
noncomputable def visualizerStepSpec (snapshot : List ℕ) (st : RecentMax) :
    VisFrame × RecentMax :=
  let bassRaw := specBandMax snapshot 0 10
  let midRaw := specBandMax snapshot 10 30
  let trebleRaw := specBandMax snapshot 30 80
  let bassVal := Real.sqrt (bassRaw / 255) * 100 * 1.2
  let midVal := Real.sqrt (midRaw / 255) * 100 * 1.7
  let trebleVal := Real.sqrt (trebleRaw / 255) * 100 * 2.2
  let newRecent : RecentMax :=
    { bass := st.bass + (max st.bass bassVal - st.bass) * 0.05
      mid := st.mid + (max st.mid midVal - st.mid) * 0.05
      treble := st.treble + (max st.treble trebleVal - st.treble) * 0.05 }
  ({ bass := max 5 (min 90 (bassVal * (if 80 < newRecent.bass then 80 / newRecent.bass else 1)))
     mid := max 5 (min 90 (midVal * (if 80 < newRecent.mid then 80 / newRecent.mid else 1)))
     treble := max 5 (min 90 (trebleVal * (if 80 < newRecent.treble then 80 / newRecent.treble else 1))) },
   newRecent)

/-- Visualizer component state: rendered amplitudes, the running-max ref,
the pending animation frame and the audio context. -/
structure VisState where
  amplitudes : VisFrame
  recentMax : RecentMax
  animationActive : Bool
  contextOpen : Bool

/-- Component state at mount: the useState and useRef initial values. -/
noncomputable def initialVisState : VisState :=
  { amplitudes := ⟨0, 0, 0⟩
    recentMax := ⟨0, 0, 0⟩
    animationActive := false
    contextOpen := false }

/-- stopVisualization: cancel the pending animation frame, disconnect the
source, close the audio context, and render zero amplitudes.  The
recentMaxValues ref is not touched. -/
noncomputable def stopVisualization (s : VisState) : VisState :=
  { s with
    animationActive := false
    contextOpen := false
    amplitudes := ⟨0, 0, 0⟩ }

/-- n smoothing steps against a constant compressed-gained value V. -/
noncomputable def runIter (V : ℝ) : ℕ → ℝ → ℝ
  | 0, m => m
  | n + 1, m => updateRecentMax (runIter V n m) V

/-- n frames of the visualization loop over a snapshot sequence, state
threaded through the per-frame update. -/
noncomputable def iterFrames (seq : ℕ → List ℕ) : ℕ → RecentMax → RecentMax
  | 0, st => st
  | n + 1, st => (updateAmplitudes (seq n) (iterFrames seq n st)).2

/-! ## Playback Transport (audio player component) -/

/-- The duration property of the audio element as a JavaScript number:
NaN before metadata, Infinity for unbounded streams, a finite value else. -/
inductive DurationVal where
  | nan
  | inf
  | fin (q : ℚ)
deriving DecidableEq

/-- JavaScript isFinite on a duration value. -/
def DurationVal.jsIsFinite : DurationVal → Bool
  | .fin _ => true
  | _ => false

/-- JavaScript isNaN on a duration value. -/
def DurationVal.jsIsNaN : DurationVal → Bool
  | .nan => true
  | _ => false

/-- The rational carried by a finite duration (never read otherwise). -/
def DurationVal.val : DurationVal → ℚ
  | .fin q => q
  | _ => 0

/-- Player component state: the useState fields, plus whether an audio
element has been created for the current source. -/
structure PlayerState where
  isPlaying : Bool
  currentTime : ℚ
  duration : ℚ
  isReady : Bool
  loading : Bool
  volume : ℚ
  isMuted : Bool
  audioLoaded : Bool
deriving DecidableEq

/-- Initial useState values of the player component. -/
def initialPlayerState : PlayerState :=
  { isPlaying := false
    currentTime := 0
    duration := 0
    isReady := false
    loading := true
    volume := 0.8
    isMuted := false
    audioLoaded := false }

/-- The load effect for a new source URL: loading raised, playback state
reset, readiness reset; volume and mute carried over; duration untouched. -/
def loadAudio (s : PlayerState) : PlayerState :=
  { s with
    loading := true
    isPlaying := false
    currentTime := 0
    isReady := false
    audioLoaded := true }

/-- loadedmetadata handler: when the duration is finite and not NaN, set
the duration, mark ready, and drop loading; no readiness guard. -/
def handleLoadedMetadata (s : PlayerState) (d : DurationVal) : PlayerState :=
  if d.jsIsFinite && !d.jsIsNaN then
    { s with duration := d.val, isReady := true, loading := false }
  else s

/-- loadeddata handler: backup duration source.  Its readiness guard reads
not the live state but the isReady value the closure captured when the
load effect for this audio element ran (false on mount, the prior
session's readiness on a URL change): the handlers are defined inside the
effect keyed on the source URL and are never re-created on re-renders. -/
def handleLoadedData (capturedIsReady : Bool) (s : PlayerState)
    (d : DurationVal) : PlayerState :=
  if !capturedIsReady && (d.jsIsFinite && !d.jsIsNaN) then
    { s with duration := d.val, isReady := true, loading := false }
  else s

/-- canplay handler: always drops loading; sets duration and readiness
only when the captured (effect-run-time, not live) readiness was false
and the duration is finite and not NaN. -/
def handleCanPlay (capturedIsReady : Bool) (s : PlayerState)
    (d : DurationVal) : PlayerState :=
  let s1 := { s with loading := false }
  if !capturedIsReady && (d.jsIsFinite && !d.jsIsNaN) then
    { s1 with duration := d.val, isReady := true }
  else s1

/-- timeupdate handler: always tracks the position; last-resort duration
source, additionally requiring a positive duration, again guarded on the
captured (effect-run-time) readiness rather than the live state. -/
def handleTimeUpdate (capturedIsReady : Bool) (s : PlayerState) (t : ℚ)
    (d : DurationVal) : PlayerState :=
  let s1 := { s with currentTime := t }
  if !capturedIsReady && (d.jsIsFinite && !d.jsIsNaN) && decide (0 < d.val) then
    { s1 with duration := d.val, isReady := true }
  else s1

/-- ended handler: stop playing and rewind to zero. -/
def handleEnded (s : PlayerState) : PlayerState :=
  { s with isPlaying := false, currentTime := 0 }

/-- error handler: drop loading and readiness. -/
def handleError (s : PlayerState) : PlayerState :=
  { s with loading := false, isReady := false }

/-- The events the audio element can deliver to the attached listeners,
with the observable values each handler reads from the element. -/
inductive MediaSignal where
  | loadedMetadata (d : DurationVal)
  | loadedData (d : DurationVal)
  | canPlay (d : DurationVal)
  | timeUpdate (t : ℚ) (d : DurationVal)
  | ended
  | error
deriving DecidableEq

/-- Dispatch of one delivered event to its handler.  capturedIsReady is
the readiness value frozen into the three backup handlers' closures when
this audio element's load effect ran. -/
def handleSignal (capturedIsReady : Bool) (s : PlayerState) :
    MediaSignal → PlayerState
  | .loadedMetadata d => handleLoadedMetadata s d
  | .loadedData d => handleLoadedData capturedIsReady s d
  | .canPlay d => handleCanPlay capturedIsReady s d
  | .timeUpdate t d => handleTimeUpdate capturedIsReady s t d
  | .ended => handleEnded s
  | .error => handleError s

/-- Running the load effect from state s: the handlers capture the
readiness of the render the effect ran in (second component) before the
effect resets the live state (first component). -/
def loadEffect (s : PlayerState) : PlayerState × Bool :=
  (loadAudio s, s.isReady)

/-- handleVolumeChange: a no-op without an audio element; otherwise stores
the parsed value as-is and derives muted from newVolume === 0. -/
def handleVolumeChange (s : PlayerState) (v : ℚ) : PlayerState :=
  if s.audioLoaded then
    { s with volume := v, isMuted := decide (v = 0) }
  else s

/-! ## Helper lemmas for the capture model -/

/-- A found candidate is supported and everything before it in the list is
unsupported. -/
theorem firstSupported_eq_some (supported : String → Bool) :
    ∀ (l : List String) (c : String), firstSupported supported l = some c →
      supported c = true ∧
        ∃ l1 l2, l = l1 ++ c :: l2 ∧ ∀ d ∈ l1, supported d = false := by
  intro l
  induction l with
  | nil => intro c h; simp [firstSupported] at h
  | cons f rest ih =>
    intro c h
    cases hf : supported f with
    | true =>
      rw [firstSupported, hf, if_pos rfl] at h
      obtain rfl : f = c := by simpa using h
      exact ⟨hf, [], rest, rfl, by simp⟩
    | false =>
      rw [firstSupported, hf] at h
      simp only [Bool.false_eq_true, if_false] at h
      obtain ⟨hc, l1, l2, hl, hall⟩ := ih c h
      refine ⟨hc, f :: l1, l2, by simp [hl], ?_⟩
      intro d hd
      rcases List.mem_cons.mp hd with rfl | hd
      · exact hf
      · exact hall d hd

/-- When the search comes back empty, no candidate is supported. -/
theorem firstSupported_eq_none (supported : String → Bool) :
    ∀ (l : List String), firstSupported supported l = none →
      ∀ d ∈ l, supported d = false := by
  intro l
  induction l with
  | nil => intro _ d hd; simp at hd
  | cons f rest ih =>
    intro h d hd
    cases hf : supported f with
    | true => rw [firstSupported, hf, if_pos rfl] at h; exact absurd h (by simp)
    | false =>
      rw [firstSupported, hf] at h
      simp only [Bool.false_eq_true, if_false] at h
      rcases List.mem_cons.mp hd with rfl | hd
      · exact hf
      · exact ih h d hd

/-- Computation of the start / three ticks / stop scenario. -/
theorem scenario_run (supported : String → Bool) (defaultMime : String)
    (s1 s2 s3 s4 : ℕ) (h1 : 0 < s1) (h2 : 0 < s2) (h3 : 0 < s3) :
    stopRecording s4 (recorderTick s3 (recorderTick s2 (recorderTick s1
        (startRecording supported defaultMime)))) =
      (some { chunks := [s1, s2, s3] ++ (if 0 < s4 then [s4] else [])
              mimeType := (startRecording supported defaultMime).recorderMime },
       { isRecording := false, recordingTime := 3, chunks := [s1, s2, s3]
         recorderMime := (startRecording supported defaultMime).recorderMime }) := by
  simp [startRecording, recorderTick, stopRecording, h1, h2, h3]

/-- Claim C2 (confirmed).  The recording mime type is the first candidate of
the fixed ordered list that the runtime reports supported (with the runtime
default as fallback when none is), and the scenario startCapture, three
one-second ticks delivering nonempty chunks, stopCapture yields an artifact
with at least 3 chunks, a recorded elapsed time of 3 seconds, and the first
supported candidate as its mime type. -/
theorem capture_negotiation_and_scenario (supported : String → Bool)
    (defaultMime : String) (s1 s2 s3 s4 : ℕ)
    (h1 : 0 < s1) (h2 : 0 < s2) (h3 : 0 < s3) :
    (∀ c, firstSupported supported formats = some c →
      supported c = true ∧
      (∃ l1 l2, formats = l1 ++ c :: l2 ∧ ∀ d ∈ l1, supported d = false) ∧
      ∃ art,
        (stopRecording s4 (recorderTick s3 (recorderTick s2 (recorderTick s1
            (startRecording supported defaultMime))))).1 = some art ∧
        3 ≤ art.chunks.length ∧ art.mimeType = c ∧
        (stopRecording s4 (recorderTick s3 (recorderTick s2 (recorderTick s1
            (startRecording supported defaultMime))))).2.recordingTime = 3) ∧
    (firstSupported supported formats = none →
      (∀ d ∈ formats, supported d = false) ∧
      (startRecording supported defaultMime).recorderMime = defaultMime) := by
  have hrun := scenario_run supported defaultMime s1 s2 s3 s4 h1 h2 h3
  constructor
  · intro c hc
    obtain ⟨hsup, hfirst⟩ := firstSupported_eq_some supported formats c hc
    refine ⟨hsup, hfirst, ?_⟩
    refine ⟨{ chunks := [s1, s2, s3] ++ (if 0 < s4 then [s4] else [])
              mimeType := (startRecording supported defaultMime).recorderMime },
            by rw [hrun], ?_, ?_, by rw [hrun]⟩
    · by_cases h4 : 0 < s4 <;> simp [h4]
    · simp [startRecording, hc]
  · intro hnone
    exact ⟨firstSupported_eq_none supported formats hnone,
           by simp [startRecording, hnone]⟩

/-- Witness for C2 at a concrete runtime: only audio/mp3 supported (the two
earlier candidates are refused), chunk sizes 1,1,1 and an empty final flush. -/
theorem capture_negotiation_and_scenario_witness :
    (fun m => m == "audio/mp3") "audio/mp3" = true ∧
    (∃ l1 l2, formats = l1 ++ "audio/mp3" :: l2 ∧
        ∀ d ∈ l1, (fun m => m == "audio/mp3") d = false) ∧
    ∃ art,
      (stopRecording 0 (recorderTick 1 (recorderTick 1 (recorderTick 1
          (startRecording (fun m => m == "audio/mp3") "default/mime"))))).1 =
        some art ∧
      3 ≤ art.chunks.length ∧ art.mimeType = "audio/mp3" ∧
      (stopRecording 0 (recorderTick 1 (recorderTick 1 (recorderTick 1
          (startRecording (fun m => m == "audio/mp3") "default/mime"))))).2.recordingTime = 3 :=
  (capture_negotiation_and_scenario (fun m => m == "audio/mp3") "default/mime"
    1 1 1 0 (by decide) (by decide) (by decide)).1 "audio/mp3" (by decide)

/-- Claim C6 amended theorem.  When the provider rejects the real payload,
the gateway retries against the fixed fallback URL: a successful retry is
returned as success with the disclaimer suffix appended to the text, and a
failed retry surfaces a failure result built from the retry error. -/
theorem transcribe_fallback_on_failure (f : TFile)
    (provider : AudioSource → Except String TranscriptOk) (e : String)
    (hfail : provider (.buffer ("audio." ++ getFileExtension f)) = .error e) :
    (∀ r, provider (.url TEST_MP3_URL) = .ok r →
      transcribeAudio (some f) false provider =
        .success (r.text ++ FALLBACK_SUFFIX) r.durationInSeconds r.segments r.language) ∧
    (∀ e2, provider (.url TEST_MP3_URL) = .error e2 →
      transcribeAudio (some f) false provider = .failure (ERR_PREFIX ++ e2)) := by
  constructor
  · intro r hr
    simp [transcribeAudio, hfail, hr]
  · intro e2 hr
    simp [transcribeAudio, hfail, hr]

/-- Counterexample to claim C6 as stated: when the provider also rejects
the fallback sample, the gateway returns an error object to the caller, so
the scenario "real payload rejected" does not always end in a success whose
text carries the disclaimer. -/
theorem transcribe_double_failure_surfaces_error :
    transcribeAudio (some ⟨"recording.webm", "audio/webm", 5⟩) false
        (fun _ => .error "provider down") =
      .failure "Failed to transcribe audio: provider down" ∧
    ∀ t d sg lg,
      transcribeAudio (some ⟨"recording.webm", "audio/webm", 5⟩) false
          (fun _ => .error "provider down") ≠ .success t d sg lg := by
  constructor
  · rfl
  · intro t d sg lg h
    rw [show transcribeAudio (some ⟨"recording.webm", "audio/webm", 5⟩) false
          (fun _ => .error "provider down") =
        .failure "Failed to transcribe audio: provider down" from rfl] at h
    exact absurd h (by simp)

/-- Witness for the amended C6 at a concrete provider that rejects every
buffer and transcribes the fallback URL. -/
theorem transcribe_fallback_on_failure_witness :
    transcribeAudio (some ⟨"recording.webm", "audio/webm", 5⟩) false
        (fun src => match src with
          | .buffer _ => .error "bad container"
          | .url _ => .ok ⟨"hello", 3, [], "en"⟩) =
      .success ("hello" ++ FALLBACK_SUFFIX) 3 [] "en" :=
  (transcribe_fallback_on_failure ⟨"recording.webm", "audio/webm", 5⟩
    (fun src => match src with
      | .buffer _ => .error "bad container"
      | .url _ => .ok ⟨"hello", 3, [], "en"⟩) "bad container" rfl).1
    ⟨"hello", 3, [], "en"⟩ rfl

/-- Claim C9 (code bug).  A call carrying only the useTestAudio flag and no
audio payload reaches the branch that reads the name property of the null
audio file while building providerOptions; the thrown TypeError is caught
by the outer handler and returned as an error object, never the success
shape the spec promises, whatever the provider would answer. -/
theorem transcribe_testFlag_without_file_errors
    (provider : AudioSource → Except String TranscriptOk) :
    transcribeAudio none true provider = .failure (ERR_PREFIX ++ NULL_NAME_ERROR) := by
  rfl

/-! ## Playback Transport theorems -/

/-- Counterexample to claim C3 as stated, in the mount scenario (the load
effect runs with readiness false, so the backup handlers capture false).
First, a position-advanced event whose available duration is 0 — finite
and non-NaN — delivered first to the loaded session does not flip
readiness, because the timeupdate handler demands a positive duration.
Second, after metadata-ready has established duration 5 and readiness, a
later data-ready signal carrying duration 9 still passes the captured
(stale) readiness guard and overwrites the established duration. -/
theorem duration_precedence_counterexample :
    (DurationVal.fin 0).jsIsFinite = true ∧
    (DurationVal.fin 0).jsIsNaN = false ∧
    (loadEffect initialPlayerState).2 = false ∧
    (loadEffect initialPlayerState).1.isReady = false ∧
    (handleSignal false (loadEffect initialPlayerState).1
        (.timeUpdate 1 (.fin 0))).isReady = false ∧
    (handleSignal false (loadEffect initialPlayerState).1
        (.loadedMetadata (.fin 5))).isReady = true ∧
    (handleSignal false (loadEffect initialPlayerState).1
        (.loadedMetadata (.fin 5))).duration = 5 ∧
    (handleSignal false (handleSignal false (loadEffect initialPlayerState).1
        (.loadedMetadata (.fin 5))) (.loadedData (.fin 9))).duration = 9 := by
  decide

/-- Claim C3 amended.  The three backup handlers consult the readiness
flag their closures captured when the element's load effect ran, not the
live state.  A metadata-ready signal with a finite non-NaN duration
always establishes durationSeconds and readiness.  When the captured flag
is false (the mount case), data-ready and can-start with a finite
non-NaN duration, and position-advanced with a finite non-NaN positive
duration, likewise set duration and readiness — even on an already-Ready
session, so they can overwrite a previously established duration.  When
the captured flag is true (a URL change away from a ready session), the
three backup handlers never change duration or readiness.  No signal of
the four ever lowers readiness from Ready. -/
theorem duration_signal_precedence (captured : Bool) (s : PlayerState)
    (q t : ℚ) (d : DurationVal) :
    ((handleSignal captured s (.loadedMetadata (.fin q))).isReady = true ∧
      (handleSignal captured s (.loadedMetadata (.fin q))).duration = q) ∧
    (captured = false →
      (handleSignal captured s (.loadedData (.fin q))).isReady = true ∧
      (handleSignal captured s (.loadedData (.fin q))).duration = q ∧
      (handleSignal captured s (.canPlay (.fin q))).isReady = true ∧
      (handleSignal captured s (.canPlay (.fin q))).duration = q ∧
      (0 < q →
        (handleSignal captured s (.timeUpdate t (.fin q))).isReady = true ∧
        (handleSignal captured s (.timeUpdate t (.fin q))).duration = q)) ∧
    (captured = true →
      (handleSignal captured s (.loadedData d)).isReady = s.isReady ∧
      (handleSignal captured s (.loadedData d)).duration = s.duration ∧
      (handleSignal captured s (.canPlay d)).isReady = s.isReady ∧
      (handleSignal captured s (.canPlay d)).duration = s.duration ∧
      (handleSignal captured s (.timeUpdate t d)).isReady = s.isReady ∧
      (handleSignal captured s (.timeUpdate t d)).duration = s.duration) ∧
    (s.isReady = true →
      (handleSignal captured s (.loadedMetadata d)).isReady = true ∧
      (handleSignal captured s (.loadedData d)).isReady = true ∧
      (handleSignal captured s (.canPlay d)).isReady = true ∧
      (handleSignal captured s (.timeUpdate t d)).isReady = true) := by
  refine ⟨?_, ?_, ?_, ?_⟩
  · simp [handleSignal, handleLoadedMetadata,
      DurationVal.jsIsFinite, DurationVal.jsIsNaN, DurationVal.val]
  · intro hc
    subst hc
    refine ⟨?_, ?_, ?_, ?_, fun hq => ⟨?_, ?_⟩⟩ <;>
      simp [handleSignal, handleLoadedData, handleCanPlay, handleTimeUpdate,
        DurationVal.jsIsFinite, DurationVal.jsIsNaN, DurationVal.val, *]
  · intro hc
    subst hc
    cases d <;>
      simp [handleSignal, handleLoadedData, handleCanPlay, handleTimeUpdate,
        DurationVal.jsIsFinite, DurationVal.jsIsNaN]
  · intro h
    cases d <;> cases captured <;>
      simp [handleSignal, handleLoadedMetadata, handleLoadedData,
        handleCanPlay, handleTimeUpdate,
        DurationVal.jsIsFinite, DurationVal.jsIsNaN, h]
    split <;> simp

/-- Witness for the amended C3: on a mount-loaded session (captured flag
false) data-ready establishes readiness and a positive position-advanced
duration is stored; on a session made ready by metadata, a can-start
signal delivered through handlers that captured readiness true (the
URL-change case) leaves duration and readiness unchanged. -/
theorem duration_signal_precedence_witness :
    (handleSignal false (loadEffect initialPlayerState).1
        (.loadedData (.fin 5))).isReady = true ∧
    (handleSignal false (loadEffect initialPlayerState).1
        (.timeUpdate 1 (.fin 5))).duration = 5 ∧
    (handleSignal true (handleSignal false (loadEffect initialPlayerState).1
        (.loadedMetadata (.fin 5))) (.canPlay (.fin 9))).duration = 5 ∧
    (handleSignal true (handleSignal false (loadEffect initialPlayerState).1
        (.loadedMetadata (.fin 5))) (.canPlay (.fin 9))).isReady = true := by
  have h1 := (duration_signal_precedence false (loadEffect initialPlayerState).1
    5 1 .nan).2.1 rfl
  have h2 := (duration_signal_precedence true
    (handleSignal false (loadEffect initialPlayerState).1 (.loadedMetadata (.fin 5)))
    9 1 (.fin 9)).2.2.1 rfl
  have h3 := (duration_signal_precedence true
    (handleSignal false (loadEffect initialPlayerState).1 (.loadedMetadata (.fin 5)))
    9 1 (.fin 9)).2.2.2 (by decide)
  refine ⟨h1.1, (h1.2.2.2.2 (by norm_num)).2, ?_, h3.2.2.1⟩
  rw [h2.2.2.2.1]
  decide

/-- Counterexample to claim C4 as stated: the volume handler stores the
parsed value without clamping, so the input 2 is stored as 2, not as
clamp(2,0,1) = 1. -/
theorem handleVolumeChange_no_clamp :
    (handleVolumeChange (loadAudio initialPlayerState) 2).volume = 2 ∧
    (handleVolumeChange (loadAudio initialPlayerState) 2).volume ≠
      max 0 (min 1 (2 : ℚ)) := by
  decide

/-- Claim C4 amended.  With an audio element present, setVolume(v) stores
v exactly as given (the range input, not the handler, restricts the value
to [0,1]) and muted becomes true exactly when v equals 0 — in particular
any v greater than 0 clears muted. -/
theorem handleVolumeChange_stores_raw (s : PlayerState) (v : ℚ)
    (h : s.audioLoaded = true) :
    (handleVolumeChange s v).volume = v ∧
    (handleVolumeChange s v).isMuted = decide (v = 0) := by
  simp [handleVolumeChange, h]

/-- Witness for the amended C4 at volume 0.3 on a loaded session. -/
theorem handleVolumeChange_stores_raw_witness :
    (handleVolumeChange (loadAudio initialPlayerState) 0.3).volume = 0.3 ∧
    (handleVolumeChange (loadAudio initialPlayerState) 0.3).isMuted = false :=
  ⟨(handleVolumeChange_stores_raw (loadAudio initialPlayerState) 0.3 rfl).1,
   ((handleVolumeChange_stores_raw (loadAudio initialPlayerState) 0.3 rfl).2).trans
     (decide_eq_false (by norm_num))⟩

/-- Counterexample to claim C7 as stated: the error handler of a playing,
ready session lowers readiness but leaves isPlaying true — nothing in the
handler forces it to false. -/
theorem handleError_keeps_isPlaying :
    (handleSignal false
        { isPlaying := true, currentTime := 2, duration := 9, isReady := true,
          loading := false, volume := 0.8, isMuted := false, audioLoaded := true }
        .error).isPlaying = true ∧
    (handleSignal false
        { isPlaying := true, currentTime := 2, duration := 9, isReady := true,
          loading := false, volume := 0.8, isMuted := false, audioLoaded := true }
        .error).isReady = false := by
  decide

/-- Claim C7 amended.  On the errored signal the session leaves the Ready
state (readiness and loading are lowered, the Errored presentation), while
isPlaying — and every other field — is left unchanged by the handler;
isPlaying is only reverted elsewhere, when a pending play request rejects. -/
theorem handleError_sets_error_state (captured : Bool) (s : PlayerState) :
    (handleSignal captured s .error).isReady = false ∧
    (handleSignal captured s .error).loading = false ∧
    (handleSignal captured s .error).isPlaying = s.isPlaying ∧
    (handleSignal captured s .error).duration = s.duration ∧
    (handleSignal captured s .error).currentTime = s.currentTime := by
  refine ⟨rfl, rfl, rfl, rfl, rfl⟩

/-! ## Visualization theorems -/

/-- The index-driven max loop computes the max fold over the sublist. -/
theorem foldl_max_range' (data : List ℕ) :
    ∀ (n s a : ℕ), s + n ≤ data.length →
      (List.range' s n).foldl
        (fun m i => if m < data.getD i 0 then data.getD i 0 else m) a
        = ((data.drop s).take n).foldl max a := by
  intro n
  induction n with
  | zero => intro s a _; simp
  | succ n ih =>
    intro s a h
    have hs : s < data.length := by omega
    rw [List.range'_succ]
    have hdrop : data.drop s = data[s] :: data.drop (s + 1) :=
      List.drop_eq_getElem_cons hs
    rw [hdrop]
    simp only [List.take_succ_cons, List.foldl_cons]
    have hgetD : data.getD s 0 = data[s] := List.getD_eq_getElem data 0 hs
    rw [hgetD]
    have hmax : (if a < data[s] then data[s] else a) = max a data[s] := by
      split <;> omega
    rw [hmax]
    exact ih (s + 1) (max a data[s]) (by omega)

/-- The source loop and the spec wording agree on every band maximum. -/
theorem getMaxForRange_eq_spec (data : List ℕ) (s e : ℕ) :
    getMaxForRange data s e = specBandMax data s e := by
  unfold getMaxForRange specBandMax
  by_cases hse : s ≤ min e data.length
  · rw [foldl_max_range' data (min e data.length - s) s 0 (by omega)]
    congr 1
    rw [List.take_eq_take]
    simp only [List.length_drop]
    omega
  · have hn : min e data.length - s = 0 := by omega
    rw [hn]
    simp only [List.range'_zero, List.foldl_nil]
    by_cases he : e ≤ s
    · rw [Nat.sub_eq_zero_of_le he]
      simp
    · have hlen : data.length ≤ s := by omega
      rw [List.drop_eq_nil_of_le hlen]
      simp

/-- Clamping to [5,90] commutes: min-then-max equals max-then-min. -/
theorem clamp_min_max (x : ℝ) : min 90 (max 5 x) = max 5 (min 90 x) := by
  rw [min_max_distrib_left, min_eq_right (by norm_num : (5 : ℝ) ≤ 90)]

/-- Claim C1 (confirmed).  One step of the visualization sub-loop emits
exactly the three-tuple and next running-max state described by the spec:
band maxima over [0,10), [10,30), [30,80), sqrt(raw/255)*100 compression,
gains 1.2/1.7/2.2, running-max smoothing at rate 0.05 applied before the
adaptive de-gain 80/runningMax (when the updated running max exceeds 80),
and the [5,90] clamp on each emitted value. -/
theorem updateAmplitudes_eq_spec (data : List ℕ) (st : RecentMax) :
    updateAmplitudes data st = visualizerStepSpec data st := by
  unfold updateAmplitudes visualizerStepSpec
  simp only [getMaxForRange_eq_spec, compressDynamicRange, bassGain, midGain,
    trebleGain, adaptationRate, updateRecentMax, adaptiveScale, clamp_min_max]

/-- Claim C10 (confirmed).  The smoothing step never decreases any band's
running max: each updated entry dominates its previous value, for every
snapshot and every prior state. -/
theorem recentMax_monotone (data : List ℕ) (st : RecentMax) :
    st.bass ≤ (updateAmplitudes data st).2.bass ∧
    st.mid ≤ (updateAmplitudes data st).2.mid ∧
    st.treble ≤ (updateAmplitudes data st).2.treble := by
  have key : ∀ m v : ℝ, m ≤ updateRecentMax m v := by
    intro m v
    unfold updateRecentMax adaptationRate
    have := le_max_left m v
    nlinarith
  exact ⟨key _ _, key _ _, key _ _⟩

/-- Counterexample to claim C8 as stated: stopping the visualization on a
state whose running-max history is nonzero leaves the history untouched,
so it is not reset to zero. -/
theorem stopVisualization_keeps_recentMax :
    (stopVisualization
        { amplitudes := ⟨7, 8, 9⟩, recentMax := ⟨10, 20, 30⟩,
          animationActive := true, contextOpen := true }).recentMax.bass = 10 ∧
    (10 : ℝ) ≠ 0 := by
  exact ⟨rfl, by norm_num⟩

/-- Claim C8 amended.  stopVisualization cancels the animation frame,
closes the audio context and renders zero amplitudes, but it leaves the
per-band running-max history exactly as it was; the history is zero only
through the ref's initial value at component mount. -/
theorem stopVisualization_effects (s : VisState) :
    (stopVisualization s).recentMax = s.recentMax ∧
    (stopVisualization s).amplitudes.bass = 0 ∧
    (stopVisualization s).amplitudes.mid = 0 ∧
    (stopVisualization s).amplitudes.treble = 0 ∧
    (stopVisualization s).animationActive = false ∧
    (stopVisualization s).contextOpen = false ∧
    initialVisState.recentMax.bass = 0 ∧
    initialVisState.recentMax.mid = 0 ∧
    initialVisState.recentMax.treble = 0 :=
  ⟨rfl, rfl, rfl, rfl, rfl, rfl, rfl, rfl, rfl⟩

/-- One smoothing step from below the target shrinks the gap to the
target by the factor 19/20. -/
theorem updateRecentMax_of_le (m V : ℝ) (h : m ≤ V) :
    updateRecentMax m V = V - (V - m) * (19 / 20) := by
  unfold updateRecentMax adaptationRate
  rw [max_eq_right h]
  ring

/-- Closed form of the constant-input smoothing iteration started at or
below the target, together with the below-target invariant. -/
theorem runIter_closed (V : ℝ) :
    ∀ (n : ℕ) (m : ℝ), m ≤ V →
      runIter V n m = V - (V - m) * (19 / 20) ^ n ∧ runIter V n m ≤ V := by
  intro n
  induction n with
  | zero =>
    intro m hm
    refine ⟨?_, hm⟩
    simp only [runIter, pow_zero, mul_one, sub_sub_cancel]
  | succ n ih =>
    intro m hm
    obtain ⟨heq, hle⟩ := ih m hm
    have hgap : (0 : ℝ) ≤ V - runIter V n m := by linarith
    constructor
    · rw [runIter, updateRecentMax_of_le _ _ hle, heq]
      ring
    · rw [runIter, updateRecentMax_of_le _ _ hle]
      have h2 : 0 ≤ (V - runIter V n m) * (19 / 20) :=
        mul_nonneg hgap (by norm_num)
      linarith

/-- With constant band maxima over the first n snapshots, the loop state
is the constant-input iteration in every band. -/
theorem iterFrames_const (seq : ℕ → List ℕ) (Rb Rm Rt : ℕ) :
    ∀ n, (∀ i, i < n → getMaxForRange (seq i) 0 10 = Rb ∧
        getMaxForRange (seq i) 10 30 = Rm ∧ getMaxForRange (seq i) 30 80 = Rt) →
      ∀ st : RecentMax,
        iterFrames seq n st =
          ⟨runIter (compressDynamicRange Rb * bassGain) n st.bass,
           runIter (compressDynamicRange Rm * midGain) n st.mid,
           runIter (compressDynamicRange Rt * trebleGain) n st.treble⟩ := by
  intro n
  induction n with
  | zero => intro _ st; rfl
  | succ n ih =>
    intro h st
    have hn := h n (Nat.lt_succ_self n)
    rw [iterFrames, ih (fun i hi => h i (Nat.lt_succ_of_lt hi)) st]
    simp only [updateAmplitudes, hn.1, hn.2.1, hn.2.2, runIter]

/-- Every emitted clamped value lies in the interval [5, 90]. -/
theorem frame_bounds (data : List ℕ) (st : RecentMax) :
    5 ≤ (updateAmplitudes data st).1.bass ∧ (updateAmplitudes data st).1.bass ≤ 90 ∧
    5 ≤ (updateAmplitudes data st).1.mid ∧ (updateAmplitudes data st).1.mid ≤ 90 ∧
    5 ≤ (updateAmplitudes data st).1.treble ∧ (updateAmplitudes data st).1.treble ≤ 90 := by
  have h1 : ∀ x : ℝ, 5 ≤ min 90 (max 5 x) :=
    fun x => le_min (by norm_num) (le_max_left 5 x)
  have h2 : ∀ x : ℝ, min 90 (max 5 x) ≤ 90 := fun x => min_le_left _ _
  exact ⟨h1 _, h2 _, h1 _, h2 _, h1 _, h2 _⟩

set_option maxRecDepth 20000 in
/-- Band maxima of the constant full-scale 128-bin snapshot. -/
theorem replicate_band_max :
    getMaxForRange (List.replicate 128 255) 0 10 = 255 ∧
    getMaxForRange (List.replicate 128 255) 10 30 = 255 ∧
    getMaxForRange (List.replicate 128 255) 30 80 = 255 := by
  refine ⟨?_, ?_, ?_⟩ <;> decide

/-- Counterexample to claim C5 as stated: with constant full-scale input
(every bin at 255, so the bass target is sqrt(255/255)*100*1.2 = 120) and
a zero starting history, after exactly 20 = 1/adaptationRate frames the
bass running max still differs from the target by more than 1 (the exact
gap is 120*(19/20)^20, about 43), so it is not within a small epsilon of
compress(R)*gain. -/
theorem runningMax_not_converged_at_20 :
    1 < |(iterFrames (fun _ => List.replicate 128 255) 20 ⟨0, 0, 0⟩).bass -
          compressDynamicRange 255 * bassGain| := by
  obtain ⟨hm1, hm2, hm3⟩ := replicate_band_max
  have hiter := iterFrames_const (fun _ => List.replicate 128 255) 255 255 255 20
    (fun i _ => ⟨hm1, hm2, hm3⟩) ⟨0, 0, 0⟩
  have hcast : ((255 : ℕ) : ℝ) = 255 := by norm_num
  have hV : compressDynamicRange 255 * bassGain = 120 := by
    unfold compressDynamicRange bassGain
    rw [show (255 : ℝ) / 255 = 1 by norm_num, Real.sqrt_one]
    norm_num
  have hb := (runIter_closed (120 : ℝ) 20 0 (by norm_num)).1
  simp only [hiter]
  rw [hcast, hV, hb]
  have harith : (120 : ℝ) - (120 - 0) * (19 / 20) ^ 20 - 120 =
      -(120 * (19 / 20) ^ 20) := by ring
  rw [harith, abs_neg, abs_of_nonneg (by positivity)]
  rw [div_pow]
  rw [show (120 : ℝ) * (19 ^ 20 / 20 ^ 20) = 120 * 19 ^ 20 / 20 ^ 20 by ring]
  rw [lt_div_iff₀ (by positivity)]
  norm_num

/-- Claim C5 amended.  From a zero history, n ≥ 20 frames with constant
band maxima leave each running max at exactly target*(1-(19/20)^n): a
geometric approach to compress(R)*gain from below whose distance to the
target after those frames is bounded by target*(19/20)^20 (about 36% of
the target, not an arbitrarily small epsilon); and every clamped output
emitted during the run lies within [5, 90]. -/
theorem runningMax_geometric_convergence (seq : ℕ → List ℕ) (Rb Rm Rt : ℕ)
    (n : ℕ)
    (hconst : ∀ i, i < n → getMaxForRange (seq i) 0 10 = Rb ∧
        getMaxForRange (seq i) 10 30 = Rm ∧ getMaxForRange (seq i) 30 80 = Rt)
    (hn : 20 ≤ n) :
    ((iterFrames seq n ⟨0, 0, 0⟩).bass
        = compressDynamicRange Rb * bassGain * (1 - (19 / 20) ^ n) ∧
      (iterFrames seq n ⟨0, 0, 0⟩).mid
        = compressDynamicRange Rm * midGain * (1 - (19 / 20) ^ n) ∧
      (iterFrames seq n ⟨0, 0, 0⟩).treble
        = compressDynamicRange Rt * trebleGain * (1 - (19 / 20) ^ n)) ∧
    (|(iterFrames seq n ⟨0, 0, 0⟩).bass - compressDynamicRange Rb * bassGain|
        ≤ compressDynamicRange Rb * bassGain * (19 / 20) ^ 20 ∧
      |(iterFrames seq n ⟨0, 0, 0⟩).mid - compressDynamicRange Rm * midGain|
        ≤ compressDynamicRange Rm * midGain * (19 / 20) ^ 20 ∧
      |(iterFrames seq n ⟨0, 0, 0⟩).treble - compressDynamicRange Rt * trebleGain|
        ≤ compressDynamicRange Rt * trebleGain * (19 / 20) ^ 20) ∧
    (∀ i, i < n →
      5 ≤ (updateAmplitudes (seq i) (iterFrames seq i ⟨0, 0, 0⟩)).1.bass ∧
      (updateAmplitudes (seq i) (iterFrames seq i ⟨0, 0, 0⟩)).1.bass ≤ 90 ∧
      5 ≤ (updateAmplitudes (seq i) (iterFrames seq i ⟨0, 0, 0⟩)).1.mid ∧
      (updateAmplitudes (seq i) (iterFrames seq i ⟨0, 0, 0⟩)).1.mid ≤ 90 ∧
      5 ≤ (updateAmplitudes (seq i) (iterFrames seq i ⟨0, 0, 0⟩)).1.treble ∧
      (updateAmplitudes (seq i) (iterFrames seq i ⟨0, 0, 0⟩)).1.treble ≤ 90) := by
  have hiter := iterFrames_const seq Rb Rm Rt n hconst ⟨0, 0, 0⟩
  have hnn : ∀ (R : ℕ) (g : ℝ), 0 ≤ g → 0 ≤ compressDynamicRange R * g := by
    intro R g hg
    exact mul_nonneg (mul_nonneg (Real.sqrt_nonneg _) (by norm_num)) hg
  have hVb := hnn Rb bassGain (by unfold bassGain; norm_num)
  have hVm := hnn Rm midGain (by unfold midGain; norm_num)
  have hVt := hnn Rt trebleGain (by unfold trebleGain; norm_num)
  have closed : ∀ V : ℝ, 0 ≤ V → runIter V n 0 = V * (1 - (19 / 20) ^ n) := by
    intro V hV
    rw [(runIter_closed V n 0 hV).1]
    ring
  have key : ∀ V : ℝ, 0 ≤ V →
      |V * (1 - (19 / 20) ^ n) - V| ≤ V * (19 / 20) ^ 20 := by
    intro V hV
    have h1 : V * (1 - (19 / 20) ^ n) - V = -(V * ((19 : ℝ) / 20) ^ n) := by ring
    rw [h1, abs_neg, abs_of_nonneg (mul_nonneg hV (pow_nonneg (by norm_num) n))]
    exact mul_le_mul_of_nonneg_left
      (pow_le_pow_of_le_one (by norm_num) (by norm_num) hn) hV
  refine ⟨⟨?_, ?_, ?_⟩, ⟨?_, ?_, ?_⟩, ?_⟩
  · simp only [hiter]; exact closed _ hVb
  · simp only [hiter]; exact closed _ hVm
  · simp only [hiter]; exact closed _ hVt
  · simp only [hiter]; rw [closed _ hVb]; exact key _ hVb
  · simp only [hiter]; rw [closed _ hVm]; exact key _ hVm
  · simp only [hiter]; rw [closed _ hVt]; exact key _ hVt
  · intro i _
    exact frame_bounds (seq i) (iterFrames seq i ⟨0, 0, 0⟩)

/-- Witness for the amended C5 at the constant full-scale snapshot: after
exactly 20 frames from a zero history the bass running max equals
120*(1-(19/20)^20). -/
theorem runningMax_geometric_convergence_witness :
    (iterFrames (fun _ => List.replicate 128 255) 20 ⟨0, 0, 0⟩).bass
      = compressDynamicRange (255 : ℕ) * bassGain * (1 - (19 / 20) ^ 20) := by
  obtain ⟨hm1, hm2, hm3⟩ := replicate_band_max
  exact ((runningMax_geometric_convergence (fun _ => List.replicate 128 255)
      255 255 255 20
      (fun i _ => ⟨hm1, hm2, hm3⟩)
      (by norm_num)).1).1
